import Mathlib

/-! Verification of ice_libs: `ice_ram.h` and `ice_ffi.h`.

A shallow embedding of the two single-header libraries.

* Every library function performs calls into the host operating system.  A host call that
  reports through a return code and an out-parameter is modelled by a `Reply`: the code the
  call returned and the value it stored through the pointer, if it stored one.
* File-scope variables (`statex`, `si`, `host_port`, `host_size`, `pagesize`, `vm_stat`) are
  explicit state: each function takes the variables as they are before the call and returns
  them as they are after it, next to the C return value.
* C integers are natural numbers (or integers) reduced explicitly at the width of their type.
* The dynamic loader is a record of host functions over an abstract host state.
-/

namespace IceRam

/-- The type `typedef unsigned long long int ice_ram_bytes;` (ice_ram.h:227). -/
abbrev ice_ram_bytes := Nat

/-- The cast `(ice_ram_bytes) x` of an unsigned value: reduction modulo `2^64`. -/
def to_ice_ram_bytes (x : Nat) : ice_ram_bytes := x % 2 ^ 64

/-- The answer of one host call: its return code and, when the host stored something through
the out-pointer it was given, the stored value. -/
structure Reply (α : Type) where
  ret : Int
  out : Option α
deriving DecidableEq, Repr

/-- The contents of the pointed-to variable after the host call. -/
def Reply.store {α : Type} (r : Reply α) (before : α) : α :=
  match r.out with
  | some v => v
  | none => before

/-! ## ICE_RAM_MICROSOFT (ice_ram.h:273-301) -/

namespace Microsoft

/-- The `MEMORYSTATUSEX` record of `windows.h`. -/
structure MEMORYSTATUSEX where
  dwLength : Nat
  dwMemoryLoad : Nat
  ullTotalPhys : Nat
  ullAvailPhys : Nat
  ullTotalPageFile : Nat
  ullAvailPageFile : Nat
  ullTotalVirtual : Nat
  ullAvailVirtual : Nat
  ullAvailExtendedVirtual : Nat
deriving DecidableEq, Repr

/-- The value of `sizeof(statex)`: two 32-bit and seven 64-bit members. -/
def sizeof_statex : Nat := 64

/-- The file-scope `MEMORYSTATUSEX statex;` at program start (static storage is zeroed). -/
def statex_init : MEMORYSTATUSEX := ⟨0, 0, 0, 0, 0, 0, 0, 0, 0⟩

/-- Source ice_ram.h:282-290.  `os` is the answer of `GlobalMemoryStatusEx(&statex)`. -/
def ice_ram_total (statex : MEMORYSTATUSEX) (os : Reply MEMORYSTATUSEX) :
    ice_ram_bytes × MEMORYSTATUSEX :=
  let statex1 := { statex with dwLength := sizeof_statex }
  let statex2 := os.store statex1
  if os.ret ≠ 0 then (to_ice_ram_bytes statex2.ullTotalPhys, statex2) else (0, statex2)

/-- Source ice_ram.h:293-301.  `os` is the answer of `GlobalMemoryStatusEx(&statex)`. -/
def ice_ram_free (statex : MEMORYSTATUSEX) (os : Reply MEMORYSTATUSEX) :
    ice_ram_bytes × MEMORYSTATUSEX :=
  let statex1 := { statex with dwLength := sizeof_statex }
  let statex2 := os.store statex1
  if os.ret ≠ 0 then (to_ice_ram_bytes statex2.ullAvailPhys, statex2) else (0, statex2)

end Microsoft

/-! ## ICE_RAM_APPLE (ice_ram.h:303-351) -/

namespace Apple

/-- The width of `vm_size_t` (`uintptr_t`) on the target: 32 bits on ILP32, 64 bits on LP64. -/
inductive Abi where
  | ilp32
  | lp64
deriving DecidableEq, Repr

/-- Number of bits of `vm_size_t`. -/
def Abi.vm_size_bits : Abi → Nat
  | .ilp32 => 32
  | .lp64 => 64

/-- A value converted to `natural_t` (`unsigned int`, 32 bits). -/
def natural_t (x : Nat) : Nat := x % 2 ^ 32

/-- A value converted to `vm_size_t`. -/
def vm_size_t (abi : Abi) (x : Nat) : Nat := x % 2 ^ abi.vm_size_bits

/-- The return code `KERN_SUCCESS` of `mach/kern_return.h`. -/
def KERN_SUCCESS : Int := 0

/-- The record `vm_statistics_data_t` of `mach/vm_statistics.h`; every member is 32 bits wide. -/
structure vm_statistics_data_t where
  free_count : Nat
  active_count : Nat
  inactive_count : Nat
  wire_count : Nat
  zero_fill_count : Nat
  reactivations : Nat
  pageins : Nat
  pageouts : Nat
  faults : Nat
  cow_faults : Nat
  lookups : Nat
  hits : Nat
  purgeable_count : Nat
  purges : Nat
  speculative_count : Nat
deriving DecidableEq, Repr

/-- The value of `sizeof(vm_statistics_data_t) / sizeof(integer_t)`. -/
def HOST_VM_INFO_COUNT : Nat := 15

/-- The four file-scope variables of the backend (ice_ram.h:310-313). -/
structure Globals where
  host_port : Nat
  host_size : Nat
  pagesize : Nat
  vm_stat : vm_statistics_data_t
deriving DecidableEq, Repr

/-- The file-scope variables at program start (static storage is zeroed). -/
def globals_init : Globals :=
  ⟨0, 0, 0, ⟨0, 0, 0, 0, 0, 0, 0, 0, 0, 0, 0, 0, 0, 0, 0⟩⟩

/-- What the host answers to the three Mach calls of one library call: the port returned by
`mach_host_self()`, the answer of `host_page_size(host_port, &pagesize)` and the answer of
`host_statistics(host_port, HOST_VM_INFO, &vm_stat, &host_size)`, which stores the statistics
and the number of words it filled in. -/
structure HostReply where
  mach_host_self : Nat
  host_page_size : Reply Nat
  host_statistics : Reply (vm_statistics_data_t × Nat)
deriving DecidableEq, Repr

/-- The three host calls at the head of both functions (ice_ram.h:317-321, 337-341): the
file-scope variables after them.  The code returned by `host_page_size` is discarded. -/
def query (g : Globals) (os : HostReply) : Globals :=
  let g1 := { g with host_port := os.mach_host_self }
  let g2 := { g1 with host_size := HOST_VM_INFO_COUNT }
  let g3 := { g2 with pagesize := os.host_page_size.store g2.pagesize }
  let written := os.host_statistics.store (g3.vm_stat, g3.host_size)
  { g3 with vm_stat := written.1, host_size := written.2 }

/-- The local `natural_t mem_used`
`= (vm_stat.active_count + vm_stat.inactive_count + vm_stat.wire_count) * pagesize;`.
The sum is formed in `unsigned int`, the product in `vm_size_t`, the result is stored in a
`natural_t`. -/
def mem_used (abi : Abi) (g : Globals) : Nat :=
  natural_t (vm_size_t abi
    (natural_t (natural_t (g.vm_stat.active_count + g.vm_stat.inactive_count)
      + g.vm_stat.wire_count) * g.pagesize))

/-- The local `natural_t mem_free = vm_stat.free_count * pagesize;`. -/
def mem_free (abi : Abi) (g : Globals) : Nat :=
  natural_t (vm_size_t abi (g.vm_stat.free_count * g.pagesize))

/-- The local `natural_t mem_total = mem_used + mem_free;`. -/
def mem_total (abi : Abi) (g : Globals) : Nat :=
  natural_t (mem_used abi g + mem_free abi g)

/-- Source ice_ram.h:316-333. -/
def ice_ram_total (abi : Abi) (g : Globals) (os : HostReply) : ice_ram_bytes × Globals :=
  let g1 := query g os
  if os.host_statistics.ret ≠ KERN_SUCCESS then (0, g1)
  else (to_ice_ram_bytes (mem_total abi g1), g1)

/-- Source ice_ram.h:336-351. -/
def ice_ram_free (abi : Abi) (g : Globals) (os : HostReply) : ice_ram_bytes × Globals :=
  let g1 := query g os
  if os.host_statistics.ret ≠ KERN_SUCCESS then (0, g1)
  else (to_ice_ram_bytes (mem_free abi g1), g1)

end Apple

/-! ## ICE_RAM_UNIX (ice_ram.h:353-371) -/

namespace Unix

/-- The record `struct sysinfo` of `sys/sysinfo.h`.  The memory members count units of
`mem_unit` bytes. -/
structure sysinfo where
  uptime : Int
  loads : Nat × Nat × Nat
  totalram : Nat
  freeram : Nat
  sharedram : Nat
  bufferram : Nat
  totalswap : Nat
  freeswap : Nat
  procs : Nat
  totalhigh : Nat
  freehigh : Nat
  mem_unit : Nat
deriving DecidableEq, Repr

/-- The file-scope `struct sysinfo si;` at program start (static storage is zeroed). -/
def si_init : sysinfo := ⟨0, (0, 0, 0), 0, 0, 0, 0, 0, 0, 0, 0, 0, 0⟩

/-- Source ice_ram.h:362-365.  `os` is the answer of `sysinfo(&si)`; the function does not
look at its return code. -/
def ice_ram_total (si : sysinfo) (os : Reply sysinfo) : ice_ram_bytes × sysinfo :=
  let si1 := os.store si
  (to_ice_ram_bytes si1.totalram, si1)

/-- Source ice_ram.h:368-371.  `os` is the answer of `sysinfo(&si)`; the function does not
look at its return code. -/
def ice_ram_free (si : sysinfo) (os : Reply sysinfo) : ice_ram_bytes × sysinfo :=
  let si1 := os.store si
  (to_ice_ram_bytes si1.freeram, si1)

end Unix

/-! ## ICE_RAM_PSP (ice_ram.h:373-388) -/

namespace Psp

/-- Source ice_ram.h:381-383: the constant `(64 * 1024 * 1024)`. -/
def ice_ram_total : ice_ram_bytes := to_ice_ram_bytes (64 * 1024 * 1024)

/-- Source ice_ram.h:386-388.  The argument is the value returned by
`sceKernelTotalFreeMemSize()`. -/
def ice_ram_free (sceKernelTotalFreeMemSize : Nat) : ice_ram_bytes :=
  to_ice_ram_bytes sceKernelTotalFreeMemSize

end Psp

end IceRam

namespace IceFfi

/-- The type `typedef void* ice_ffi_handle;` (ice_ffi.h:138): the value of the pointer. -/
abbrev ice_ffi_handle := Nat

/-- The null pointer. -/
def NULL : ice_ffi_handle := 0

/-- The enumeration `ice_ffi_bool` (ice_ffi.h:133-136). -/
inductive ice_ffi_bool where
  | ICE_FFI_TRUE
  | ICE_FFI_FALSE
deriving DecidableEq, Repr

/-- The integer value of each enumerator: `ICE_FFI_TRUE = 0`, `ICE_FFI_FALSE = -1`. -/
def ice_ffi_bool.val : ice_ffi_bool → Int
  | .ICE_FFI_TRUE => 0
  | .ICE_FFI_FALSE => -1

/-- Conversion of an integer to a C truth value, as in `if (v)`: true when `v` is not zero. -/
def c_truth (v : Int) : Bool := decide (v ≠ 0)

/-! ## ICE_FFI_PLATFORM_MICROSOFT (ice_ffi.h:157-176) -/

namespace Microsoft

/-- The constant `TRUE` of `windows.h`. -/
def TRUE : Int := 1

/-- The three loader functions of `windows.h` over a host state `σ`.  `FreeLibrary` returns a
`BOOL`, an `int` that is nonzero on success. -/
structure Kernel32 (σ : Type) where
  LoadLibraryA : σ → String → ice_ffi_handle × σ
  FreeLibrary : σ → ice_ffi_handle → Int × σ
  GetProcAddress : σ → ice_ffi_handle → String → ice_ffi_handle × σ

/-- Source ice_ffi.h:164-166. -/
def ice_ffi_load_library {σ : Type} (os : Kernel32 σ) (s : σ) (path : String) :
    ice_ffi_handle × σ :=
  os.LoadLibraryA s path

/-- Source ice_ffi.h:169-171. -/
def ice_ffi_unload_library {σ : Type} (os : Kernel32 σ) (s : σ) (lib : ice_ffi_handle) :
    ice_ffi_bool × σ :=
  let r := os.FreeLibrary s lib
  (if r.1 = TRUE then .ICE_FFI_TRUE else .ICE_FFI_FALSE, r.2)

/-- Source ice_ffi.h:174-176. -/
def ice_ffi_get_address {σ : Type} (os : Kernel32 σ) (s : σ) (lib : ice_ffi_handle)
    (proc_name : String) : ice_ffi_handle × σ :=
  os.GetProcAddress s lib proc_name

/-- A host with one library, "testlib", mapped at `0x10000000` and exporting "answer" at
`0x10002000`.  The state is the load count of the library. -/
def testlib_host : Kernel32 Nat where
  LoadLibraryA := fun s path => if path = "testlib" then (268435456, s + 1) else (0, s)
  FreeLibrary := fun s lib => if lib = 268435456 ∧ 0 < s then (1, s - 1) else (0, s)
  GetProcAddress := fun s lib name =>
    if lib = 268435456 ∧ 0 < s ∧ name = "answer" then (268443648, s) else (0, s)

/-- The host `testlib_host` with a `FreeLibrary` that reports success by the nonzero value 2. -/
def testlib_host_two : Kernel32 Nat where
  LoadLibraryA := testlib_host.LoadLibraryA
  FreeLibrary := fun s lib => if lib = 268435456 ∧ 0 < s then (2, s - 1) else (0, s)
  GetProcAddress := testlib_host.GetProcAddress

end Microsoft

/-! ## ICE_FFI_PLATFORM_UNIX (ice_ffi.h:178-197) -/

namespace Unix

/-- The loader functions of `dlfcn.h` over a host state `σ`, with the values of the two flag
names the source passes to `dlopen`. -/
structure Dlfcn (σ : Type) where
  RTDL_LAZY : Nat
  RTDL_GLOBAL : Nat
  dlopen : σ → String → Nat → ice_ffi_handle × σ
  dlclose : σ → ice_ffi_handle → Int × σ
  dlsym : σ → ice_ffi_handle → String → ice_ffi_handle × σ

/-- Source ice_ffi.h:185-187. -/
def ice_ffi_load_library {σ : Type} (os : Dlfcn σ) (s : σ) (path : String) :
    ice_ffi_handle × σ :=
  os.dlopen s path (os.RTDL_LAZY ||| os.RTDL_GLOBAL)

/-- Source ice_ffi.h:190-192. -/
def ice_ffi_unload_library {σ : Type} (os : Dlfcn σ) (s : σ) (lib : ice_ffi_handle) :
    ice_ffi_bool × σ :=
  let r := os.dlclose s lib
  (if r.1 = 0 then .ICE_FFI_TRUE else .ICE_FFI_FALSE, r.2)

/-- Source ice_ffi.h:195-197. -/
def ice_ffi_get_address {σ : Type} (os : Dlfcn σ) (s : σ) (lib : ice_ffi_handle)
    (proc_name : String) : ice_ffi_handle × σ :=
  os.dlsym s lib proc_name

/-- A host with one library, "testlib", mapped at `0x1000` and exporting "answer" at `0x2000`.
The state is the load count of the library.  As on Linux, where `RTLD_DEFAULT` is the null
pointer, a lookup through the null handle searches the global scope, which holds "printf". -/
def testlib_host : Dlfcn Nat where
  RTDL_LAZY := 1
  RTDL_GLOBAL := 256
  dlopen := fun s path _ => if path = "testlib" then (4096, s + 1) else (0, s)
  dlclose := fun s lib => if lib = 4096 ∧ 0 < s then (0, s - 1) else (-1, s)
  dlsym := fun s lib name =>
    if lib = 4096 ∧ 0 < s ∧ name = "answer" then (8192, s)
    else if lib = 0 ∧ name = "printf" then (28672, s)
    else (0, s)

end Unix

/-! ## ICE_FFI_PLATFORM_BEOS (ice_ffi.h:199-224) -/

namespace Beos

/-- The status `B_OK` of `SupportDefs.h`. -/
def B_OK : Int := 0

/-- The status `B_ERROR` of `SupportDefs.h`. -/
def B_ERROR : Int := -1

/-- The symbol type `B_SYMBOL_TYPE_ANY` of `image.h`. -/
def B_SYMBOL_TYPE_ANY : Int := 5

/-- The add-on functions of `image.h` over a host state `σ`, and the width of a pointer on
the target.  An `image_id` is an `int32`: positive for a loaded image, a negative error code
when loading failed.  `get_image_symbol` answers with its status and with the contents of the
variable behind its out-pointer after the call. -/
structure Image (σ : Type) where
  pointer_bits : Nat
  load_add_on : σ → String → Int × σ
  unload_add_on : σ → Int → Int × σ
  get_image_symbol : σ → Int → String → Int → (Int × ice_ffi_handle) × σ

/-- Conversion of an `int32` to `void*`: the two's complement value at pointer width. -/
def int_to_pointer (bits : Nat) (i : Int) : ice_ffi_handle := (i % 2 ^ bits).toNat

/-- Conversion of a `void*` to `image_id` (`int32`): the low 32 bits, read as signed. -/
def pointer_to_image_id (p : ice_ffi_handle) : Int :=
  if p % 2 ^ 32 < 2 ^ 31 then ((p % 2 ^ 32 : Nat) : Int) else ((p % 2 ^ 32 : Nat) : Int) - 2 ^ 32

/-- Source ice_ffi.h:206-208: the `image_id` is returned as the handle. -/
def ice_ffi_load_library {σ : Type} (os : Image σ) (s : σ) (path : String) :
    ice_ffi_handle × σ :=
  let r := os.load_add_on s path
  (int_to_pointer os.pointer_bits r.1, r.2)

/-- Source ice_ffi.h:211-213. -/
def ice_ffi_unload_library {σ : Type} (os : Image σ) (s : σ) (lib : ice_ffi_handle) :
    ice_ffi_bool × σ :=
  let r := os.unload_add_on s (pointer_to_image_id lib)
  (if r.1 = B_OK then .ICE_FFI_TRUE else .ICE_FFI_FALSE, r.2)

/-- Source ice_ffi.h:216-224. -/
def ice_ffi_get_address {σ : Type} (os : Image σ) (s : σ) (lib : ice_ffi_handle)
    (proc_name : String) : ice_ffi_handle × σ :=
  let r := os.get_image_symbol s (pointer_to_image_id lib) proc_name B_SYMBOL_TYPE_ANY
  (if r.1.1 = B_OK then r.1.2 else NULL, r.2)

/-- A 32-bit host with one add-on, "testlib", loaded as image 7 and exporting "answer" at
`0x2000`.  The state is the load count of the add-on.  A failed lookup leaves `0xdead` in the
variable behind the out-pointer. -/
def testlib_host : Image Nat where
  pointer_bits := 32
  load_add_on := fun s path => if path = "testlib" then (7, s + 1) else (B_ERROR, s)
  unload_add_on := fun s id => if id = 7 ∧ 0 < s then (B_OK, s - 1) else (B_ERROR, s)
  get_image_symbol := fun s id name _ =>
    if id = 7 ∧ 0 < s ∧ name = "answer" then ((B_OK, 8192), s) else ((B_ERROR, 57005), s)

end Beos

end IceFfi

/-! ## Concrete host answers used in the evaluations below -/

namespace IceRam

/-- A `sysinfo` call that fails and stores nothing: return code `-1`. -/
def Unix.sysinfo_failed : Reply Unix.sysinfo := ⟨-1, none⟩

/-- A successful `sysinfo` call on a machine with 1 GiB of memory, half of it free, counted in
units of one byte. -/
def Unix.sysinfo_1gib : Reply Unix.sysinfo :=
  ⟨0, some { Unix.si_init with totalram := 1073741824, freeram := 536870912, mem_unit := 1 }⟩

/-- A successful `sysinfo` call on a machine with 8 GiB of memory, 2 GiB of it free, counted
in units of 4096 bytes. -/
def Unix.sysinfo_8gib_pages : Reply Unix.sysinfo :=
  ⟨0, some { Unix.si_init with totalram := 2097152, freeram := 524288, mem_unit := 4096 }⟩

/-- Successful Mach calls: host port `2563`, the given page size and the given page counts
(free, active, inactive, wired); the other statistics are zero. -/
def Apple.host_ok (pagesize free active inactive wire : Nat) : Apple.HostReply :=
  ⟨2563, ⟨Apple.KERN_SUCCESS, some pagesize⟩,
    ⟨Apple.KERN_SUCCESS,
      some (⟨free, active, inactive, wire, 0, 0, 0, 0, 0, 0, 0, 0, 0, 0, 0⟩,
        Apple.HOST_VM_INFO_COUNT)⟩⟩

end IceRam

/-! ## Conditional compilation (ice_ffi.h:95-109, 155-228; ice_ram.h:159-192, 242-392)

The header is read once (its include guard is open).  Only the names of the macros matter for
the `#if` conditions modelled here, so the state of the preprocessor is the list of the names
defined so far.  The calling-convention groups (ice_ffi.h:47-86, ice_ram.h:118-157) define no
platform flag and are left out; a build that asks for the vectorcall convention on a GNU
compiler stops at their `#error` before any of the groups below is reached. -/

namespace Cpp

/-- The names of the macros defined at a point of the translation unit. -/
abbrev Macros := List String

/-- The operator `defined(name)`. -/
def defined (m : Macros) (name : String) : Bool := m.contains name

/-- A condition `defined(a) || defined(b) || ...` over the listed names. -/
def any_defined (m : Macros) (names : List String) : Bool := names.any (defined m)

/-- The directive `#define name`. -/
def define (m : Macros) (name : String) : Macros := name :: m

/-- A group `#if c1 ... #elif c2 ... #endif` without `#else`: the text of the first branch
whose condition holds is kept, all other branches are skipped. -/
def if_elif {α : Type} : List (Bool × α) → List α
  | [] => []
  | (c, x) :: rest => if c then [x] else if_elif rest

end Cpp

namespace IceFfi

/-- The three implementation sections of ice_ffi.h, named by the flag that guards each. -/
inductive Backend where
  | ICE_FFI_PLATFORM_MICROSOFT
  | ICE_FFI_PLATFORM_UNIX
  | ICE_FFI_PLATFORM_BEOS
deriving DecidableEq, Repr

/-- The name of the flag of a backend. -/
def Backend.flag : Backend → String
  | .ICE_FFI_PLATFORM_MICROSOFT => "ICE_FFI_PLATFORM_MICROSOFT"
  | .ICE_FFI_PLATFORM_UNIX => "ICE_FFI_PLATFORM_UNIX"
  | .ICE_FFI_PLATFORM_BEOS => "ICE_FFI_PLATFORM_BEOS"

/-- The names tested at ice_ffi.h:102. -/
def microsoft_names : List String :=
  ["__WIN", "_WIN32_", "_WIN64_", "WIN32", "__WIN32__", "WIN64", "__WIN64__", "WINDOWS",
    "_WINDOWS", "__WINDOWS", "_WIN32", "_WIN64", "__CYGWIN__", "_MSC_VER", "__WINDOWS__",
    "_X360", "XBOX360", "__X360", "__X360__", "_XBOXONE", "XBONE", "XBOX", "__XBOX__",
    "__XBOX", "__xbox__", "__xbox", "_XBOX", "xbox"]

/-- The names tested at ice_ffi.h:104. -/
def beos_names : List String :=
  ["__HAIKU", "__HAIKU__", "_HAIKU", "__BeOS", "__BEOS__", "_BEOS"]

/-- Source ice_ffi.h:96-98. -/
def platform_autodetected (m : Cpp.Macros) : Cpp.Macros :=
  if !(Cpp.defined m "ICE_FFI_PLATFORM_MICROSOFT" || Cpp.defined m "ICE_FFI_PLATFORM_UNIX"
      || Cpp.defined m "ICE_FFI_PLATFORM_BEOS")
  then Cpp.define m "ICE_FFI_PLATFORM_AUTODETECTED"
  else m

/-- Source ice_ffi.h:101-109. -/
def platform_detection (m : Cpp.Macros) : Cpp.Macros :=
  if Cpp.defined m "ICE_FFI_PLATFORM_AUTODETECTED" then
    if Cpp.any_defined m microsoft_names then Cpp.define m "ICE_FFI_PLATFORM_MICROSOFT"
    else if Cpp.any_defined m beos_names then Cpp.define m "ICE_FFI_PLATFORM_BEOS"
    else Cpp.define m "ICE_FFI_PLATFORM_UNIX"
  else m

/-- Source ice_ffi.h:155-228: the implementation sections kept by the preprocessor. -/
def implementation (m : Cpp.Macros) : List Backend :=
  if Cpp.defined m "ICE_FFI_IMPL" then
    Cpp.if_elif
      [(Cpp.defined m "ICE_FFI_PLATFORM_MICROSOFT", .ICE_FFI_PLATFORM_MICROSOFT),
       (Cpp.defined m "ICE_FFI_PLATFORM_UNIX", .ICE_FFI_PLATFORM_UNIX),
       (Cpp.defined m "ICE_FFI_PLATFORM_BEOS", .ICE_FFI_PLATFORM_BEOS)]
  else []

/-- The backends compiled from ice_ffi.h when `m` lists the macros defined before the header
is included. -/
def compiled_backends (m : Cpp.Macros) : List Backend :=
  implementation (platform_detection (platform_autodetected m))

end IceFfi

namespace IceRam

/-- The five implementation sections of ice_ram.h, named by the flag that guards each. -/
inductive Backend where
  | ICE_RAM_WEB
  | ICE_RAM_MICROSOFT
  | ICE_RAM_APPLE
  | ICE_RAM_UNIX
  | ICE_RAM_PSP
deriving DecidableEq, Repr

/-- The name of the flag of a backend. -/
def Backend.flag : Backend → String
  | .ICE_RAM_WEB => "ICE_RAM_WEB"
  | .ICE_RAM_MICROSOFT => "ICE_RAM_MICROSOFT"
  | .ICE_RAM_APPLE => "ICE_RAM_APPLE"
  | .ICE_RAM_UNIX => "ICE_RAM_UNIX"
  | .ICE_RAM_PSP => "ICE_RAM_PSP"

/-- The names tested at ice_ram.h:165. -/
def android_names : List String :=
  ["__ANDROID__", "__android__", "ANDROID", "__ANDROID", "__android", "android", "_ANDROID",
    "_android"]

/-- The names tested at ice_ram.h:167. -/
def apple_names : List String :=
  ["__APPLE__", "__MACH__", "__DARWIN__", "__darwin__", "__DARWIN", "_DARWIN"]

/-- The names tested at ice_ram.h:169. -/
def emscripten_names : List String := ["__EMSCRIPTEN__", "__EMSCRIPTEN", "EMSCRIPTEN"]

/-- The names tested at ice_ram.h:171. -/
def beos_names : List String :=
  ["__BeOS", "__BEOS__", "_BEOS", "__HAIKU", "__HAIKU__", "_HAIKU"]

/-- The condition of ice_ram.h:173.  `&&` binds tighter than `||`, so the exclusion of
Android qualifies the last name, `linux`, only. -/
def linux_condition (m : Cpp.Macros) : Bool :=
  Cpp.any_defined m ["__linux__", "__LINUX__", "LINUX", "__LINUX", "__linux"]
    || (Cpp.defined m "linux"
      && !(Cpp.any_defined m ["__ANDROID__", "ANDROID", "__ANDROID", "__android"]))

/-- The condition of ice_ram.h:175. -/
def microsoft_condition (m : Cpp.Macros) : Bool :=
  Cpp.any_defined m
    ["__WIN", "_WIN32_", "_WIN64_", "WIN32", "__WIN32__", "WIN64", "__WIN64__", "WINDOWS",
      "_WINDOWS", "__WINDOWS", "_WIN32", "_WIN64", "__CYGWIN__", "_MSC_VER", "__WINDOWS__",
      "_X360", "XBOX360", "__X360", "__X360__", "_XBOXONE", "XBONE", "XBOX", "__XBOX__",
      "__XBOX", "__xbox__", "__xbox", "_XBOX", "xbox"]
    || ((Cpp.defined m "_XBOX_ONE" || Cpp.defined m "_DURANGO") && Cpp.defined m "_TITLE")

/-- The names tested at ice_ram.h:177. -/
def psp_names : List String := ["PSP", "__PSP__", "__psp__", "__PSP", "_PSP"]

/-- Source ice_ram.h:159-161. -/
def platform_autodetected (m : Cpp.Macros) : Cpp.Macros :=
  if !(Cpp.defined m "ICE_RAM_MICROSOFT" || Cpp.defined m "ICE_RAM_UNIX"
      || Cpp.defined m "ICE_RAM_APPLE" || Cpp.defined m "ICE_RAM_WEB"
      || Cpp.defined m "ICE_RAM_PSP")
  then Cpp.define m "ICE_RAM_PLATFORM_AUTODETECTED"
  else m

/-- Source ice_ram.h:164-180.  The inner group has no `#else`. -/
def platform_detection (m : Cpp.Macros) : Cpp.Macros :=
  if Cpp.defined m "ICE_RAM_PLATFORM_AUTODETECTED" then
    if Cpp.any_defined m android_names then Cpp.define m "ICE_RAM_UNIX"
    else if Cpp.any_defined m apple_names then Cpp.define m "ICE_RAM_APPLE"
    else if Cpp.any_defined m emscripten_names then Cpp.define m "ICE_RAM_WEB"
    else if Cpp.any_defined m beos_names then Cpp.define m "ICE_RAM_UNIX"
    else if linux_condition m then Cpp.define m "ICE_RAM_UNIX"
    else if microsoft_condition m then Cpp.define m "ICE_RAM_MICROSOFT"
    else if Cpp.any_defined m psp_names then Cpp.define m "ICE_RAM_PSP"
    else m
  else m

/-- Source ice_ram.h:242-392: the implementation sections kept by the preprocessor. -/
def implementation (m : Cpp.Macros) : List Backend :=
  if Cpp.defined m "ICE_RAM_IMPL" then
    Cpp.if_elif
      [(Cpp.defined m "ICE_RAM_WEB", .ICE_RAM_WEB),
       (Cpp.defined m "ICE_RAM_MICROSOFT", .ICE_RAM_MICROSOFT),
       (Cpp.defined m "ICE_RAM_APPLE", .ICE_RAM_APPLE),
       (Cpp.defined m "ICE_RAM_UNIX", .ICE_RAM_UNIX),
       (Cpp.defined m "ICE_RAM_PSP", .ICE_RAM_PSP)]
  else []

/-- The backends compiled from ice_ram.h when `m` lists the macros defined before the header
is included. -/
def compiled_backends (m : Cpp.Macros) : List Backend :=
  implementation (platform_detection (platform_autodetected m))

/-- Source ice_ram.h:184-186. -/
def linkage_flags (m : Cpp.Macros) : Cpp.Macros :=
  if !(Cpp.defined m "ICE_RAM_EXTERN" && Cpp.defined m "ICE_RAM_STATIC")
  then Cpp.define m "ICE_RAM_EXTERN"
  else m

/-- Source ice_ram.h:188-192: the replacement text given to `ICE_RAM_APIDEF`, or `none` when
neither branch defines it. -/
def ICE_RAM_APIDEF (m : Cpp.Macros) : Option String :=
  if Cpp.defined m "ICE_RAM_EXTERN" then some "extern"
  else if Cpp.defined m "ICE_RAM_STATIC" then some "static"
  else none

/-- The replacement text of `ICE_RAM_APIDEF` after ice_ram.h:184-192 when `m` lists the
macros defined before the header is included. -/
def apidef (m : Cpp.Macros) : Option String := ICE_RAM_APIDEF (linkage_flags m)

end IceRam

/-! # Memory facade: properties -/

namespace IceRam

/-- A host call that stored a value leaves that value in the variable, whatever was there. -/
theorem Reply.store_of_out {α : Type} (r : Reply α) (v before : α) (h : r.out = some v) :
    r.store before = v := by
  simp [Reply.store, h]

/-- A host call that stored nothing leaves the variable as it was. -/
theorem Reply.store_of_untouched {α : Type} (r : Reply α) (before : α) (h : r.out = none) :
    r.store before = before := by
  simp [Reply.store, h]

/-- Windows backend: when `GlobalMemoryStatusEx` returns zero (failure), both functions return
0, whatever is or was in `statex`. -/
theorem Microsoft.ice_ram_windows_query_failed (statex : Microsoft.MEMORYSTATUSEX)
    (os : Reply Microsoft.MEMORYSTATUSEX) (h : os.ret = 0) :
    (Microsoft.ice_ram_total statex os).1 = 0 ∧ (Microsoft.ice_ram_free statex os).1 = 0 := by
  simp [Microsoft.ice_ram_total, Microsoft.ice_ram_free, h]

/-- Apple backend: when `host_statistics` returns a code other than `KERN_SUCCESS`, both
functions return 0, whatever is or was in the file-scope variables. -/
theorem Apple.ice_ram_apple_query_failed (abi : Apple.Abi) (g : Apple.Globals) (os : Apple.HostReply)
    (h : os.host_statistics.ret ≠ Apple.KERN_SUCCESS) :
    (Apple.ice_ram_total abi g os).1 = 0 ∧ (Apple.ice_ram_free abi g os).1 = 0 := by
  simp [Apple.ice_ram_total, Apple.ice_ram_free, h]

/-- Unix backend: both functions return the member of `si` as it is after the call, whatever
`sysinfo` returned. -/
theorem Unix.ice_ram_reads_buffer (si : Unix.sysinfo) (os : Reply Unix.sysinfo) :
    (Unix.ice_ram_total si os).1 = (os.store si).totalram % 2 ^ 64 ∧
    (Unix.ice_ram_free si os).1 = (os.store si).freeram % 2 ^ 64 := by
  simp [Unix.ice_ram_total, Unix.ice_ram_free, to_ice_ram_bytes]

/-- Windows backend: after a successful query that stored the status `m`, the functions return
`m.ullTotalPhys` and `m.ullAvailPhys` (as 64-bit values), whatever `statex` held before. -/
theorem Microsoft.ice_ram_query_succeeded (statex : Microsoft.MEMORYSTATUSEX)
    (os : Reply Microsoft.MEMORYSTATUSEX) (m : Microsoft.MEMORYSTATUSEX)
    (hret : os.ret ≠ 0) (hout : os.out = some m) :
    (Microsoft.ice_ram_total statex os).1 = m.ullTotalPhys % 2 ^ 64 ∧
    (Microsoft.ice_ram_free statex os).1 = m.ullAvailPhys % 2 ^ 64 := by
  simp [Microsoft.ice_ram_total, Microsoft.ice_ram_free, hret, Reply.store, hout,
    to_ice_ram_bytes]

/-- Windows backend: when the stored status has no more available than total memory, the free
amount returned is at most the total amount returned. -/
theorem Microsoft.ice_ram_windows_free_le_total (statex statex2 : Microsoft.MEMORYSTATUSEX)
    (os : Reply Microsoft.MEMORYSTATUSEX) (m : Microsoft.MEMORYSTATUSEX)
    (hret : os.ret ≠ 0) (hout : os.out = some m) (hm : m.ullAvailPhys ≤ m.ullTotalPhys)
    (hfit : m.ullTotalPhys < 2 ^ 64) :
    (Microsoft.ice_ram_free statex2 os).1 ≤ (Microsoft.ice_ram_total statex os).1 := by
  rw [(Microsoft.ice_ram_query_succeeded statex os m hret hout).1,
    (Microsoft.ice_ram_query_succeeded statex2 os m hret hout).2]
  rw [Nat.mod_eq_of_lt hfit, Nat.mod_eq_of_lt (lt_of_le_of_lt hm hfit)]
  exact hm

/-- Apple backend: after the three host calls the page size and the statistics are the ones
the host stored, whatever the file-scope variables held before. -/
theorem Apple.query_of_stored (g : Apple.Globals) (os : Apple.HostReply) (p n : Nat)
    (st : Apple.vm_statistics_data_t) (hp : os.host_page_size.out = some p)
    (hs : os.host_statistics.out = some (st, n)) :
    Apple.query g os = ⟨os.mach_host_self, n, p, st⟩ := by
  simp [Apple.query, Reply.store, hp, hs]

/-- Apple backend: when both host calls stored their answers, the values returned do not
depend on the file-scope variables before the call. -/
theorem Apple.ice_ram_independent_of_globals (abi : Apple.Abi) (g g2 : Apple.Globals)
    (os : Apple.HostReply) (p n : Nat) (st : Apple.vm_statistics_data_t)
    (hp : os.host_page_size.out = some p) (hs : os.host_statistics.out = some (st, n)) :
    (Apple.ice_ram_total abi g os).1 = (Apple.ice_ram_total abi g2 os).1 ∧
    (Apple.ice_ram_free abi g os).1 = (Apple.ice_ram_free abi g2 os).1 := by
  simp [Apple.ice_ram_total, Apple.ice_ram_free, Apple.query_of_stored g os p n st hp hs,
    Apple.query_of_stored g2 os p n st hp hs]

/-- Windows backend: when a successful query stored its answer, the values returned do not
depend on `statex` before the call. -/
theorem Microsoft.ice_ram_independent_of_statex (statex statex2 : Microsoft.MEMORYSTATUSEX)
    (os : Reply Microsoft.MEMORYSTATUSEX) (hout : os.ret ≠ 0 → os.out.isSome = true) :
    (Microsoft.ice_ram_total statex os).1 = (Microsoft.ice_ram_total statex2 os).1 ∧
    (Microsoft.ice_ram_free statex os).1 = (Microsoft.ice_ram_free statex2 os).1 := by
  by_cases hret : os.ret = 0
  · simp [Microsoft.ice_ram_windows_query_failed _ os hret]
  · obtain ⟨m, hm⟩ := Option.isSome_iff_exists.mp (hout hret)
    simp [Microsoft.ice_ram_query_succeeded _ os m hret hm]

/-- PSP backend: the free amount is at most the constant total when the host reports at most
64 MiB free. -/
theorem Psp.ice_ram_psp_free_le_total (free : Nat) (h : free ≤ 67108864) :
    Psp.ice_ram_free free ≤ Psp.ice_ram_total := by
  have : free % 2 ^ 64 = free := Nat.mod_eq_of_lt (by omega)
  simp only [Psp.ice_ram_free, Psp.ice_ram_total, to_ice_ram_bytes, this]
  norm_num
  exact h

/-- C1 (Unix backend, at the failing input): `si` holds the answer of an earlier successful
call (1 GiB total, 512 MiB free); the next `sysinfo` call fails with return code -1 and stores
nothing.  `ice_ram_total` then returns 1073741824 and `ice_ram_free` returns 536870912: the
stale contents of the buffer, not the sentinel 0. -/
theorem C1_unix_failed_query_returns_buffer :
    Unix.sysinfo_failed.ret = -1 ∧
    (Unix.ice_ram_total (Unix.ice_ram_total Unix.si_init Unix.sysinfo_1gib).2
      Unix.sysinfo_failed).1 = 1073741824 ∧
    (Unix.ice_ram_free (Unix.ice_ram_total Unix.si_init Unix.sysinfo_1gib).2
      Unix.sysinfo_failed).1 = 536870912 := by
  decide

/-- C7 (Apple backend, at the failing input): both calls succeed on the same status of a
16 GiB machine (page size 4096; 900000 free, 1500000 active, 500000 inactive and 400000 wired
pages).  `ice_ram_total` returns 631898112 and `ice_ram_free` returns 3686400000, so the
total is below the free amount, on either width of `vm_size_t`. -/
theorem C7_apple_total_below_free (abi : Apple.Abi) :
    (Apple.host_ok 4096 900000 1500000 500000 400000).host_statistics.ret
      = Apple.KERN_SUCCESS ∧
    (Apple.ice_ram_total abi Apple.globals_init
      (Apple.host_ok 4096 900000 1500000 500000 400000)).1 = 631898112 ∧
    (Apple.ice_ram_free abi Apple.globals_init
      (Apple.host_ok 4096 900000 1500000 500000 400000)).1 = 3686400000 ∧
    (Apple.ice_ram_total abi Apple.globals_init
      (Apple.host_ok 4096 900000 1500000 500000 400000)).1 <
    (Apple.ice_ram_free abi Apple.globals_init
      (Apple.host_ok 4096 900000 1500000 500000 400000)).1 := by
  cases abi <;> decide

/-- C8 (Apple backend, at the failing input): the query succeeds on a 16 GiB machine with
exactly 4 GiB free (page size 4096; 1048576 free, 2000000 active, 700000 inactive and 445728
wired pages).  The host reports nonzero amounts, 17179869184 bytes in total and 4294967296
bytes free, and both `ice_ram_total` and `ice_ram_free` return 0. -/
theorem C8_apple_success_returns_zero (abi : Apple.Abi) :
    (Apple.host_ok 4096 1048576 2000000 700000 445728).host_statistics.ret
      = Apple.KERN_SUCCESS ∧
    (2000000 + 700000 + 445728 + 1048576) * 4096 = 17179869184 ∧
    1048576 * 4096 = 4294967296 ∧
    (Apple.ice_ram_total abi Apple.globals_init
      (Apple.host_ok 4096 1048576 2000000 700000 445728)).1 = 0 ∧
    (Apple.ice_ram_free abi Apple.globals_init
      (Apple.host_ok 4096 1048576 2000000 700000 445728)).1 = 0 := by
  cases abi <;> decide

/-- C9 (Unix backend, at the failing input): `sysinfo` succeeds and reports 2097152 units of
4096 bytes in total and 524288 such units free.  `ice_ram_total` returns 2097152 and
`ice_ram_free` returns 524288, the unit counts, where the sizes in bytes are 8589934592 and
2147483648. -/
theorem C9_unix_returns_units_not_bytes :
    Unix.sysinfo_8gib_pages.ret = 0 ∧
    (Unix.ice_ram_total Unix.si_init Unix.sysinfo_8gib_pages).1 = 2097152 ∧
    (Unix.ice_ram_free Unix.si_init Unix.sysinfo_8gib_pages).1 = 524288 ∧
    (Unix.ice_ram_total Unix.si_init Unix.sysinfo_8gib_pages).1 ≠ 2097152 * 4096 ∧
    (Unix.ice_ram_free Unix.si_init Unix.sysinfo_8gib_pages).1 ≠ 524288 * 4096 := by
  decide

/-- C10 (Unix backend, at the failing input): two calls of `ice_ram_total` receive the same
answer from the host, a failed `sysinfo` that stores nothing.  Made first in the program the
call returns 0; made after a successful call that saw 1 GiB it returns 1073741824.  The same
holds for `ice_ram_free` with 0 and 536870912. -/
theorem C10_unix_result_depends_on_earlier_call :
    (Unix.ice_ram_total Unix.si_init Unix.sysinfo_failed).1 = 0 ∧
    (Unix.ice_ram_total (Unix.ice_ram_total Unix.si_init Unix.sysinfo_1gib).2
      Unix.sysinfo_failed).1 = 1073741824 ∧
    (Unix.ice_ram_free Unix.si_init Unix.sysinfo_failed).1 = 0 ∧
    (Unix.ice_ram_free (Unix.ice_ram_free Unix.si_init Unix.sysinfo_1gib).2
      Unix.sysinfo_failed).1 = 536870912 := by
  decide

end IceRam

/-! # Library facade: properties -/

namespace IceFfi

/-- An `int32` converted to a pointer of at least 32 bits and back is unchanged. -/
theorem Beos.pointer_to_image_id_int_to_pointer (bits : Nat) (i : Int) (hbits : 32 ≤ bits)
    (hlo : -2 ^ 31 ≤ i) (hhi : i < 2 ^ 31) :
    Beos.pointer_to_image_id (Beos.int_to_pointer bits i) = i := by
  obtain ⟨k, rfl⟩ : ∃ k, bits = 32 + k := ⟨bits - 32, by omega⟩
  have hk : (1 : Int) ≤ 2 ^ k := one_le_pow₀ (by norm_num)
  have hP : (2 : Int) ^ (32 + k) = 2 ^ 32 * 2 ^ k := pow_add 2 32 k
  have hPn : (2 : Nat) ^ (32 + k) = 2 ^ 32 * 2 ^ k := pow_add 2 32 k
  have hge : (2 : Int) ^ 32 ≤ 2 ^ 32 * 2 ^ k := by nlinarith
  unfold Beos.pointer_to_image_id Beos.int_to_pointer
  rcases lt_or_le i 0 with hneg | hpos
  · have hmod : i % 2 ^ (32 + k) = i + 2 ^ (32 + k) := by
      rw [← Int.add_mul_emod_self_left i (2 ^ (32 + k)) 1, mul_one]
      exact Int.emod_eq_of_lt (by rw [hP]; omega) (by omega)
    have hnat : (i % 2 ^ (32 + k)).toNat = (i + 2 ^ 32).toNat + 2 ^ 32 * (2 ^ k - 1) := by
      rw [hmod, hP]
      have h1 : (1 : Nat) ≤ 2 ^ k := Nat.one_le_two_pow
      zify [h1]
      rw [Int.toNat_of_nonneg (by omega), Int.toNat_of_nonneg (by omega)]
      push_cast
      ring
    rw [hnat, Nat.add_mul_mod_self_left]
    have hlt : (i + 2 ^ 32).toNat < 2 ^ 32 := by omega
    rw [Nat.mod_eq_of_lt hlt]
    have hnot : ¬ (i + 2 ^ 32).toNat < 2 ^ 31 := by omega
    rw [if_neg hnot]
    omega
  · have hmod : i % 2 ^ (32 + k) = i := Int.emod_eq_of_lt hpos (by rw [hP]; omega)
    rw [hmod]
    have hlt : i.toNat < 2 ^ 31 := by omega
    rw [Nat.mod_eq_of_lt (by omega), if_pos hlt]
    omega

/-- A nonzero `int32` converted to a pointer of at least 32 bits is not the null pointer. -/
theorem Beos.int_to_pointer_ne_null (bits : Nat) (i : Int) (hbits : 32 ≤ bits)
    (hlo : -2 ^ 31 ≤ i) (hhi : i < 2 ^ 31) (hne : i ≠ 0) :
    Beos.int_to_pointer bits i ≠ NULL := by
  intro h
  have hback := Beos.pointer_to_image_id_int_to_pointer bits i hbits hlo hhi
  rw [h] at hback
  exact hne (by rw [← hback]; decide)

/-- Windows and POSIX backends: the handle returned is the one the host loader returned, so a
failed load (null from `LoadLibraryA` or `dlopen`) gives the null handle. -/
theorem ice_ffi_load_library_passes_host_handle {α β : Type} (win : Microsoft.Kernel32 α)
    (dl : Unix.Dlfcn β) (a : α) (b : β) (path : String) :
    (Microsoft.ice_ffi_load_library win a path).1 = (win.LoadLibraryA a path).1 ∧
    (Unix.ice_ffi_load_library dl b path).1
      = (dl.dlopen b path (dl.RTDL_LAZY ||| dl.RTDL_GLOBAL)).1 := by
  exact ⟨rfl, rfl⟩

/-- BeOS backend: a failed load (negative `image_id`) never gives the null handle. -/
theorem Beos.ice_ffi_load_library_failed {σ : Type} (os : Beos.Image σ) (s : σ)
    (path : String) (hbits : 32 ≤ os.pointer_bits)
    (hlo : -2 ^ 31 ≤ (os.load_add_on s path).1) (hneg : (os.load_add_on s path).1 < 0) :
    (Beos.ice_ffi_load_library os s path).1 ≠ NULL := by
  unfold Beos.ice_ffi_load_library
  exact Beos.int_to_pointer_ne_null _ _ hbits hlo (by omega) (by omega)

/-- POSIX and BeOS backends: the result is `ICE_FFI_TRUE` exactly when `dlclose` returns 0,
respectively `unload_add_on` returns `B_OK`. -/
theorem ice_ffi_unload_library_posix_beos_true_iff {β γ : Type} (dl : Unix.Dlfcn β) (be : Beos.Image γ)
    (b : β) (c : γ) (lib : ice_ffi_handle) :
    ((Unix.ice_ffi_unload_library dl b lib).1 = .ICE_FFI_TRUE ↔ (dl.dlclose b lib).1 = 0) ∧
    ((Beos.ice_ffi_unload_library be c lib).1 = .ICE_FFI_TRUE ↔
      (be.unload_add_on c (Beos.pointer_to_image_id lib)).1 = Beos.B_OK) := by
  constructor
  · unfold Unix.ice_ffi_unload_library
    by_cases h : (dl.dlclose b lib).1 = 0 <;> simp [h]
  · unfold Beos.ice_ffi_unload_library
    by_cases h : (be.unload_add_on c (Beos.pointer_to_image_id lib)).1 = Beos.B_OK <;> simp [h]

/-- Windows backend: the result is `ICE_FFI_TRUE` exactly when `FreeLibrary` returns the
value `TRUE`, that is 1. -/
theorem Microsoft.ice_ffi_unload_library_windows_true_iff {σ : Type} (os : Microsoft.Kernel32 σ)
    (s : σ) (lib : ice_ffi_handle) :
    (Microsoft.ice_ffi_unload_library os s lib).1 = .ICE_FFI_TRUE ↔
      (os.FreeLibrary s lib).1 = 1 := by
  unfold Microsoft.ice_ffi_unload_library
  by_cases h : (os.FreeLibrary s lib).1 = 1 <;> simp [h, Microsoft.TRUE]

/-- C2 (BeOS backend, at the failing input): the host has no add-on at "missing.so", so
`load_add_on` returns the negative code `B_ERROR`.  `ice_ffi_load_library` returns that code
converted to a pointer, `0xFFFFFFFF`, which is not the null handle. -/
theorem C2_beos_failed_load_not_null :
    (Beos.testlib_host.load_add_on 0 "missing.so").1 = Beos.B_ERROR ∧
    Beos.B_ERROR < 0 ∧
    (Beos.ice_ffi_load_library Beos.testlib_host 0 "missing.so").1 = 4294967295 ∧
    (Beos.ice_ffi_load_library Beos.testlib_host 0 "missing.so").1 ≠ NULL := by
  decide

/-- C3 (Windows backend, at the failing input): "testlib" is loaded and `FreeLibrary` reports
the successful unload by the nonzero value 2.  `ice_ffi_unload_library` compares that value
with `TRUE` and returns `ICE_FFI_FALSE`, although the library was unloaded (load count 0). -/
theorem C3_windows_nonzero_success_reported_false :
    (Microsoft.ice_ffi_load_library Microsoft.testlib_host_two 0 "testlib")
      = (268435456, 1) ∧
    (Microsoft.testlib_host_two.FreeLibrary 1 268435456).1 = 2 ∧
    Microsoft.ice_ffi_unload_library Microsoft.testlib_host_two 1 268435456
      = (.ICE_FFI_FALSE, 0) := by
  decide

/-- C4 (as stated, refuted): on the POSIX backend "testlib" is loaded and then unloaded;
`dlclose` returns 0 and the result is `ICE_FFI_TRUE`, whose value 0 is false under C boolean
conversion.  Unloading the null handle fails, `dlclose` returns -1, and the result
`ICE_FFI_FALSE` has the value -1, which is true under C boolean conversion. -/
theorem C4_success_value_is_c_false :
    (Unix.testlib_host.dlclose 1 4096).1 = 0 ∧
    (Unix.ice_ffi_unload_library Unix.testlib_host 1 4096).1 = .ICE_FFI_TRUE ∧
    c_truth (Unix.ice_ffi_unload_library Unix.testlib_host 1 4096).1.val = false ∧
    (Unix.testlib_host.dlclose 1 NULL).1 = -1 ∧
    (Unix.ice_ffi_unload_library Unix.testlib_host 1 NULL).1 = .ICE_FFI_FALSE ∧
    c_truth (Unix.ice_ffi_unload_library Unix.testlib_host 1 NULL).1.val = true := by
  decide

/-- C4 (amended): on every backend the result of `ice_ffi_unload_library` is a status code in
which zero means success.  When the unload call of the host passes the test of the source
(`FreeLibrary` equal to `TRUE`, `dlclose` equal to 0, `unload_add_on` equal to `B_OK`) the
value returned is 0, which is false under C boolean conversion; otherwise the value returned
is -1, which is true under C boolean conversion. -/
theorem C4_unload_status_zero_on_success {α β γ : Type} (win : Microsoft.Kernel32 α)
    (dl : Unix.Dlfcn β) (be : Beos.Image γ) (a : α) (b : β) (c : γ) (lib : ice_ffi_handle) :
    ((Microsoft.ice_ffi_unload_library win a lib).1.val
        = if (win.FreeLibrary a lib).1 = Microsoft.TRUE then 0 else -1) ∧
    ((Unix.ice_ffi_unload_library dl b lib).1.val
        = if (dl.dlclose b lib).1 = 0 then 0 else -1) ∧
    ((Beos.ice_ffi_unload_library be c lib).1.val
        = if (be.unload_add_on c (Beos.pointer_to_image_id lib)).1 = Beos.B_OK
          then 0 else -1) ∧
    c_truth ice_ffi_bool.ICE_FFI_TRUE.val = false ∧
    c_truth ice_ffi_bool.ICE_FFI_FALSE.val = true := by
  refine ⟨?_, ?_, ?_, by decide, by decide⟩
  · unfold Microsoft.ice_ffi_unload_library
    by_cases h : (win.FreeLibrary a lib).1 = Microsoft.TRUE <;> simp [h, ice_ffi_bool.val]
  · unfold Unix.ice_ffi_unload_library
    by_cases h : (dl.dlclose b lib).1 = 0 <;> simp [h, ice_ffi_bool.val]
  · unfold Beos.ice_ffi_unload_library
    by_cases h : (be.unload_add_on c (Beos.pointer_to_image_id lib)).1 = Beos.B_OK <;>
      simp [h, ice_ffi_bool.val]

/-- C5 (as stated, refuted): on the POSIX backend loading "missing.so" fails and gives the
null handle; `ice_ffi_get_address` with that handle and the name "printf" returns what `dlsym`
finds in the global scope, the address `0x7000`, not null. -/
theorem C5_posix_null_handle_resolves :
    (Unix.ice_ffi_load_library Unix.testlib_host 0 "missing.so").1 = NULL ∧
    (Unix.ice_ffi_get_address Unix.testlib_host 0
      (Unix.ice_ffi_load_library Unix.testlib_host 0 "missing.so").1 "printf").1 = 28672 ∧
    (Unix.ice_ffi_get_address Unix.testlib_host 0
      (Unix.ice_ffi_load_library Unix.testlib_host 0 "missing.so").1 "printf").1 ≠ NULL := by
  decide

/-- C5 (amended): `ice_ffi_get_address` does not examine the handle; for every handle, valid
or not, it hands the handle to the lookup of the host and returns the answer.  On Windows and
POSIX the result and the host state are those of `GetProcAddress`, respectively `dlsym`; on
BeOS the handle is converted to an `image_id`, the result is the address stored by
`get_image_symbol` when that call returns `B_OK` and null otherwise, and the host state is the
one left by `get_image_symbol`.  So with an invalid handle the result is null exactly when the
lookup of the host yields null or, on BeOS, an error status. -/
theorem C5_get_address_is_host_lookup {α β γ : Type} (win : Microsoft.Kernel32 α)
    (dl : Unix.Dlfcn β) (be : Beos.Image γ) (a : α) (b : β) (c : γ) (lib : ice_ffi_handle)
    (proc_name : String) :
    Microsoft.ice_ffi_get_address win a lib proc_name = win.GetProcAddress a lib proc_name ∧
    Unix.ice_ffi_get_address dl b lib proc_name = dl.dlsym b lib proc_name ∧
    Beos.ice_ffi_get_address be c lib proc_name
      = (if (be.get_image_symbol c (Beos.pointer_to_image_id lib) proc_name
              Beos.B_SYMBOL_TYPE_ANY).1.1 = Beos.B_OK
          then (be.get_image_symbol c (Beos.pointer_to_image_id lib) proc_name
              Beos.B_SYMBOL_TYPE_ANY).1.2
          else NULL,
         (be.get_image_symbol c (Beos.pointer_to_image_id lib) proc_name
              Beos.B_SYMBOL_TYPE_ANY).2) ∧
    ((Microsoft.ice_ffi_get_address win a lib proc_name).1 = NULL ↔
      (win.GetProcAddress a lib proc_name).1 = NULL) ∧
    ((Unix.ice_ffi_get_address dl b lib proc_name).1 = NULL ↔
      (dl.dlsym b lib proc_name).1 = NULL) ∧
    ((Beos.ice_ffi_get_address be c lib proc_name).1 = NULL ↔
      (be.get_image_symbol c (Beos.pointer_to_image_id lib) proc_name
          Beos.B_SYMBOL_TYPE_ANY).1.1 ≠ Beos.B_OK ∨
      (be.get_image_symbol c (Beos.pointer_to_image_id lib) proc_name
          Beos.B_SYMBOL_TYPE_ANY).1.2 = NULL) := by
  refine ⟨rfl, rfl, rfl, Iff.rfl, Iff.rfl, ?_⟩
  unfold Beos.ice_ffi_get_address
  by_cases h : (be.get_image_symbol c (Beos.pointer_to_image_id lib) proc_name
      Beos.B_SYMBOL_TYPE_ANY).1.1 = Beos.B_OK <;> simp [h]

/-- Round trip on every backend, for hosts whose unload call answers with the exact success
code the source tests for: against a host in which the library at `p` loads (non-null module
handle, non-null `dlopen` handle, positive `image_id`), the lookup of `sym` through the loaded
library yields a non-null address, the lookup of `bad` fails, and the unload call then returns
`TRUE` (that is 1), respectively 0, respectively `B_OK`: `ice_ffi_load_library` returns a
non-null handle; `ice_ffi_get_address` with that handle returns the address of `sym`, which is
not null, and returns null for `bad`; and `ice_ffi_unload_library` of that handle then returns
`ICE_FFI_TRUE`. -/
theorem round_trip_of_exact_success_code {α β γ : Type}
    (win : Microsoft.Kernel32 α) (dl : Unix.Dlfcn β) (be : Beos.Image γ) (p sym bad : String)
    (w0 w1 w2 w3 w4 : α) (hw aw : ice_ffi_handle)
    (hwl : win.LoadLibraryA w0 p = (hw, w1)) (hwn : hw ≠ NULL)
    (hws : win.GetProcAddress w1 hw sym = (aw, w2)) (hwa : aw ≠ NULL)
    (hwb : win.GetProcAddress w2 hw bad = (NULL, w3))
    (hwu : win.FreeLibrary w3 hw = (Microsoft.TRUE, w4))
    (d0 d1 d2 d3 d4 : β) (hd ad : ice_ffi_handle)
    (hdl : dl.dlopen d0 p (dl.RTDL_LAZY ||| dl.RTDL_GLOBAL) = (hd, d1)) (hdn : hd ≠ NULL)
    (hds : dl.dlsym d1 hd sym = (ad, d2)) (hda : ad ≠ NULL)
    (hdb : dl.dlsym d2 hd bad = (NULL, d3))
    (hdu : dl.dlclose d3 hd = (0, d4))
    (b0 b1 b2 b3 b4 : γ) (id err : Int) (ab junk : ice_ffi_handle)
    (hbits : 32 ≤ be.pointer_bits)
    (hbl : be.load_add_on b0 p = (id, b1)) (hidpos : 0 < id) (hid32 : id < 2 ^ 31)
    (hbs : be.get_image_symbol b1 id sym Beos.B_SYMBOL_TYPE_ANY = ((Beos.B_OK, ab), b2))
    (hba : ab ≠ NULL)
    (hbb : be.get_image_symbol b2 id bad Beos.B_SYMBOL_TYPE_ANY = ((err, junk), b3))
    (herr : err ≠ Beos.B_OK)
    (hbu : be.unload_add_on b3 id = (Beos.B_OK, b4)) :
    (Microsoft.ice_ffi_load_library win w0 p = (hw, w1) ∧
      (Microsoft.ice_ffi_load_library win w0 p).1 ≠ NULL ∧
      Microsoft.ice_ffi_get_address win w1 hw sym = (aw, w2) ∧
      (Microsoft.ice_ffi_get_address win w1 hw sym).1 ≠ NULL ∧
      Microsoft.ice_ffi_get_address win w2 hw bad = (NULL, w3) ∧
      Microsoft.ice_ffi_unload_library win w3 hw = (.ICE_FFI_TRUE, w4)) ∧
    (Unix.ice_ffi_load_library dl d0 p = (hd, d1) ∧
      (Unix.ice_ffi_load_library dl d0 p).1 ≠ NULL ∧
      Unix.ice_ffi_get_address dl d1 hd sym = (ad, d2) ∧
      (Unix.ice_ffi_get_address dl d1 hd sym).1 ≠ NULL ∧
      Unix.ice_ffi_get_address dl d2 hd bad = (NULL, d3) ∧
      Unix.ice_ffi_unload_library dl d3 hd = (.ICE_FFI_TRUE, d4)) ∧
    ((Beos.ice_ffi_load_library be b0 p).2 = b1 ∧
      (Beos.ice_ffi_load_library be b0 p).1 ≠ NULL ∧
      Beos.ice_ffi_get_address be b1 (Beos.ice_ffi_load_library be b0 p).1 sym = (ab, b2) ∧
      (Beos.ice_ffi_get_address be b1 (Beos.ice_ffi_load_library be b0 p).1 sym).1 ≠ NULL ∧
      Beos.ice_ffi_get_address be b2 (Beos.ice_ffi_load_library be b0 p).1 bad = (NULL, b3) ∧
      Beos.ice_ffi_unload_library be b3 (Beos.ice_ffi_load_library be b0 p).1
        = (.ICE_FFI_TRUE, b4)) := by
  have hback : Beos.pointer_to_image_id (Beos.int_to_pointer be.pointer_bits id) = id :=
    Beos.pointer_to_image_id_int_to_pointer _ _ hbits (by omega) hid32
  have hnull : Beos.int_to_pointer be.pointer_bits id ≠ NULL :=
    Beos.int_to_pointer_ne_null _ _ hbits (by omega) hid32 (by omega)
  have hwl2 : Microsoft.ice_ffi_load_library win w0 p = (hw, w1) := hwl
  have hws2 : Microsoft.ice_ffi_get_address win w1 hw sym = (aw, w2) := hws
  have hdl2 : Unix.ice_ffi_load_library dl d0 p = (hd, d1) := hdl
  have hds2 : Unix.ice_ffi_get_address dl d1 hd sym = (ad, d2) := hds
  have hbl2 : Beos.ice_ffi_load_library be b0 p = (Beos.int_to_pointer be.pointer_bits id, b1) := by
    simp [Beos.ice_ffi_load_library, hbl]
  have hbs2 : Beos.ice_ffi_get_address be b1 (Beos.int_to_pointer be.pointer_bits id) sym
      = (ab, b2) := by
    simp [Beos.ice_ffi_get_address, hback, hbs]
  refine ⟨⟨hwl2, ?_, hws2, ?_, hwb, ?_⟩, ⟨hdl2, ?_, hds2, ?_, hdb, ?_⟩, ?_, ?_, ?_, ?_, ?_, ?_⟩
  · rw [hwl2]; exact hwn
  · rw [hws2]; exact hwa
  · simp [Microsoft.ice_ffi_unload_library, hwu]
  · rw [hdl2]; exact hdn
  · rw [hds2]; exact hda
  · simp [Unix.ice_ffi_unload_library, hdu]
  · rw [hbl2]
  · rw [hbl2]; exact hnull
  · rw [hbl2]; exact hbs2
  · rw [hbl2]; simp only [hbs2]; exact hba
  · rw [hbl2]; simp [Beos.ice_ffi_get_address, hback, hbb, herr]
  · rw [hbl2]; simp [Beos.ice_ffi_unload_library, hback, hbu]

/-- The round trip at a concrete host whose `FreeLibrary` returns 1: the library "testlib"
exports "answer"; the misspelled name is "anwser".  On Windows the handle is `0x10000000` and
the address `0x10002000`; on POSIX the handle is `0x1000` and the address `0x2000`; on BeOS
the image is 7 and the address `0x2000`. -/
theorem round_trip_of_exact_success_code_testlib :
    (Microsoft.ice_ffi_load_library Microsoft.testlib_host 0 "testlib" = (268435456, 1) ∧
      (Microsoft.ice_ffi_load_library Microsoft.testlib_host 0 "testlib").1 ≠ NULL ∧
      Microsoft.ice_ffi_get_address Microsoft.testlib_host 1 268435456 "answer"
        = (268443648, 1) ∧
      (Microsoft.ice_ffi_get_address Microsoft.testlib_host 1 268435456 "answer").1 ≠ NULL ∧
      Microsoft.ice_ffi_get_address Microsoft.testlib_host 1 268435456 "anwser" = (NULL, 1) ∧
      Microsoft.ice_ffi_unload_library Microsoft.testlib_host 1 268435456
        = (.ICE_FFI_TRUE, 0)) ∧
    (Unix.ice_ffi_load_library Unix.testlib_host 0 "testlib" = (4096, 1) ∧
      (Unix.ice_ffi_load_library Unix.testlib_host 0 "testlib").1 ≠ NULL ∧
      Unix.ice_ffi_get_address Unix.testlib_host 1 4096 "answer" = (8192, 1) ∧
      (Unix.ice_ffi_get_address Unix.testlib_host 1 4096 "answer").1 ≠ NULL ∧
      Unix.ice_ffi_get_address Unix.testlib_host 1 4096 "anwser" = (NULL, 1) ∧
      Unix.ice_ffi_unload_library Unix.testlib_host 1 4096 = (.ICE_FFI_TRUE, 0)) ∧
    ((Beos.ice_ffi_load_library Beos.testlib_host 0 "testlib").2 = 1 ∧
      (Beos.ice_ffi_load_library Beos.testlib_host 0 "testlib").1 ≠ NULL ∧
      Beos.ice_ffi_get_address Beos.testlib_host 1
        (Beos.ice_ffi_load_library Beos.testlib_host 0 "testlib").1 "answer" = (8192, 1) ∧
      (Beos.ice_ffi_get_address Beos.testlib_host 1
        (Beos.ice_ffi_load_library Beos.testlib_host 0 "testlib").1 "answer").1 ≠ NULL ∧
      Beos.ice_ffi_get_address Beos.testlib_host 1
        (Beos.ice_ffi_load_library Beos.testlib_host 0 "testlib").1 "anwser" = (NULL, 1) ∧
      Beos.ice_ffi_unload_library Beos.testlib_host 1
        (Beos.ice_ffi_load_library Beos.testlib_host 0 "testlib").1
        = (.ICE_FFI_TRUE, 0)) :=
  round_trip_of_exact_success_code Microsoft.testlib_host Unix.testlib_host Beos.testlib_host
    "testlib" "answer" "anwser"
    0 1 1 1 0 268435456 268443648 (by decide) (by decide) (by decide) (by decide) (by decide)
    (by decide)
    0 1 1 1 0 4096 8192 (by decide) (by decide) (by decide) (by decide) (by decide) (by decide)
    0 1 1 1 0 7 Beos.B_ERROR 8192 57005 (by decide) (by decide) (by decide) (by decide)
    (by decide) (by decide) (by decide) (by decide) (by decide)

/-- C6 (Windows backend, at the failing input): the host has the library "testlib" exporting
"answer" at the non-null address `0x10002000`, and its `FreeLibrary` reports success by the
nonzero value 2.  The library loads with the non-null handle `0x10000000`,
`ice_ffi_get_address` returns `0x10002000` for "answer" and null for the misspelled "anwser",
and the unload call of the host succeeds (return value 2, load count back to 0); yet
`ice_ffi_unload_library` returns `ICE_FFI_FALSE`, not `ICE_FFI_TRUE`. -/
theorem C6_windows_round_trip_unload_reported_false :
    Microsoft.ice_ffi_load_library Microsoft.testlib_host_two 0 "testlib" = (268435456, 1) ∧
    (Microsoft.ice_ffi_load_library Microsoft.testlib_host_two 0 "testlib").1 ≠ NULL ∧
    Microsoft.ice_ffi_get_address Microsoft.testlib_host_two 1
      (Microsoft.ice_ffi_load_library Microsoft.testlib_host_two 0 "testlib").1 "answer"
      = (268443648, 1) ∧
    Microsoft.ice_ffi_get_address Microsoft.testlib_host_two 1
      (Microsoft.ice_ffi_load_library Microsoft.testlib_host_two 0 "testlib").1 "anwser"
      = (NULL, 1) ∧
    Microsoft.testlib_host_two.FreeLibrary 1
      (Microsoft.ice_ffi_load_library Microsoft.testlib_host_two 0 "testlib").1 = (2, 0) ∧
    Microsoft.ice_ffi_unload_library Microsoft.testlib_host_two 1
      (Microsoft.ice_ffi_load_library Microsoft.testlib_host_two 0 "testlib").1
      = (.ICE_FFI_FALSE, 0) ∧
    (Microsoft.ice_ffi_unload_library Microsoft.testlib_host_two 1
      (Microsoft.ice_ffi_load_library Microsoft.testlib_host_two 0 "testlib").1).1
      ≠ .ICE_FFI_TRUE := by
  decide

end IceFfi

/-! # Conditional compilation: properties -/

namespace Cpp

/-- After `#define x` a name is defined when it is `x` or was defined before. -/
theorem defined_define (m : Macros) (x n : String) :
    defined (define m x) n = true ↔ n = x ∨ defined m n = true := by
  simp [defined, define]

/-- A macro that is defined stays defined after a further `#define`. -/
theorem defined_define_of_defined (m : Macros) (x n : String) (h : defined m n = true) :
    defined (define m x) n = true :=
  (defined_define m x n).mpr (Or.inr h)

/-- The macro named by `#define` is defined afterwards. -/
theorem defined_define_self (m : Macros) (x : String) : defined (define m x) x = true :=
  (defined_define m x x).mpr (Or.inl rfl)

/-- A group of `#if`/`#elif` branches keeps the text of at most one branch. -/
theorem if_elif_length_le_one {α : Type} (branches : List (Bool × α)) :
    (if_elif branches).length ≤ 1 := by
  induction branches with
  | nil => simp [if_elif]
  | cons b rest ih =>
    obtain ⟨c, x⟩ := b
    cases c <;> simp [if_elif, ih]

end Cpp

namespace IceFfi

/-- Library facade: the two detection steps only add definitions. -/
theorem platform_detection_keeps_ffi (m : Cpp.Macros) (n : String)
    (h : Cpp.defined m n = true) :
    Cpp.defined (platform_detection (platform_autodetected m)) n = true := by
  have h1 : Cpp.defined (platform_autodetected m) n = true := by
    unfold platform_autodetected
    split
    · exact Cpp.defined_define_of_defined _ _ _ h
    · exact h
  unfold platform_detection
  split_ifs
  · exact Cpp.defined_define_of_defined _ _ _ h1
  · exact Cpp.defined_define_of_defined _ _ _ h1
  · exact Cpp.defined_define_of_defined _ _ _ h1
  · exact h1

/-- Library facade: after the two detection steps at least one platform flag is defined. -/
theorem platform_detection_defines_flag_ffi (m : Cpp.Macros) :
    ∃ b : Backend, Cpp.defined (platform_detection (platform_autodetected m)) b.flag = true := by
  by_cases hflag : ∃ b : Backend, Cpp.defined m b.flag = true
  · obtain ⟨b, hb⟩ := hflag
    exact ⟨b, platform_detection_keeps_ffi m _ hb⟩
  · have hmark : Cpp.defined (platform_autodetected m) "ICE_FFI_PLATFORM_AUTODETECTED"
        = true := by
      have f1 : Cpp.defined m "ICE_FFI_PLATFORM_MICROSOFT" = false := by
        by_contra hc
        exact hflag ⟨.ICE_FFI_PLATFORM_MICROSOFT, by simpa [Backend.flag] using hc⟩
      have f2 : Cpp.defined m "ICE_FFI_PLATFORM_UNIX" = false := by
        by_contra hc
        exact hflag ⟨.ICE_FFI_PLATFORM_UNIX, by simpa [Backend.flag] using hc⟩
      have f3 : Cpp.defined m "ICE_FFI_PLATFORM_BEOS" = false := by
        by_contra hc
        exact hflag ⟨.ICE_FFI_PLATFORM_BEOS, by simpa [Backend.flag] using hc⟩
      simp only [platform_autodetected, f1, f2, f3, Bool.or_self, Bool.not_false, if_true]
      exact Cpp.defined_define_self _ _
    unfold platform_detection
    rw [if_pos hmark]
    split_ifs
    · exact ⟨.ICE_FFI_PLATFORM_MICROSOFT, Cpp.defined_define_self _ _⟩
    · exact ⟨.ICE_FFI_PLATFORM_BEOS, Cpp.defined_define_self _ _⟩
    · exact ⟨.ICE_FFI_PLATFORM_UNIX, Cpp.defined_define_self _ _⟩

/-- Library facade: whatever macros are defined beforehand, never two implementation sections
are compiled. -/
theorem compiled_backends_at_most_one_ffi (m : Cpp.Macros) :
    (compiled_backends m).length ≤ 1 := by
  unfold compiled_backends implementation
  split
  · exact Cpp.if_elif_length_le_one _
  · simp

/-- Library facade: with `ICE_FFI_IMPL` defined, exactly one implementation section is
compiled, whatever other macros are defined beforehand; a platform matched by neither
detection list falls through to the POSIX backend. -/
theorem compiled_backends_exactly_one_ffi (m : Cpp.Macros)
    (himpl : Cpp.defined m "ICE_FFI_IMPL" = true) :
    ∃ b, compiled_backends m = [b] := by
  have hi := platform_detection_keeps_ffi m _ himpl
  obtain ⟨b, hb⟩ := platform_detection_defines_flag_ffi m
  unfold compiled_backends implementation
  rw [if_pos hi]
  cases b <;> simp only [Backend.flag] at hb <;>
    by_cases h1 : Cpp.defined (platform_detection (platform_autodetected m))
      "ICE_FFI_PLATFORM_MICROSOFT" = true <;>
    by_cases h2 : Cpp.defined (platform_detection (platform_autodetected m))
      "ICE_FFI_PLATFORM_UNIX" = true <;>
    simp_all [Cpp.if_elif]

/-- Library facade: when a platform flag is defined beforehand and the marker
`ICE_FFI_PLATFORM_AUTODETECTED` is not, the two detection steps define nothing. -/
theorem platform_detection_skipped_ffi (m : Cpp.Macros) (b : Backend)
    (hb : Cpp.defined m b.flag = true)
    (hmark : Cpp.defined m "ICE_FFI_PLATFORM_AUTODETECTED" = false) :
    platform_detection (platform_autodetected m) = m := by
  have h1 : platform_autodetected m = m := by
    unfold platform_autodetected
    cases b <;> simp only [Backend.flag] at hb <;> simp [hb]
  rw [h1]
  simp [platform_detection, hmark]

end IceFfi

namespace IceRam

/-- Memory facade: whatever macros are defined beforehand, never two implementation sections
are compiled. -/
theorem compiled_backends_at_most_one_ram (m : Cpp.Macros) :
    (compiled_backends m).length ≤ 1 := by
  unfold compiled_backends implementation
  split
  · exact Cpp.if_elif_length_le_one _
  · simp

/-- Memory facade: when a platform flag is defined beforehand and the marker
`ICE_RAM_PLATFORM_AUTODETECTED` is not, the two detection steps define nothing. -/
theorem platform_detection_skipped_ram (m : Cpp.Macros) (b : Backend)
    (hb : Cpp.defined m b.flag = true)
    (hmark : Cpp.defined m "ICE_RAM_PLATFORM_AUTODETECTED" = false) :
    platform_detection (platform_autodetected m) = m := by
  have h1 : platform_autodetected m = m := by
    unfold platform_autodetected
    cases b <;> simp only [Backend.flag] at hb <;> simp [hb]
  rw [h1]
  simp [platform_detection, hmark]

/-- Memory facade: when no platform flag is defined beforehand and none of the seven
conditions of the detection group holds, no implementation section is compiled. -/
theorem compiled_backends_nil_of_unmatched (m : Cpp.Macros)
    (hflags : ∀ b : Backend, Cpp.defined m b.flag = false)
    (h1 : Cpp.any_defined m android_names = false) (h2 : Cpp.any_defined m apple_names = false)
    (h3 : Cpp.any_defined m emscripten_names = false)
    (h4 : Cpp.any_defined m beos_names = false) (h5 : linux_condition m = false)
    (h6 : microsoft_condition m = false) (h7 : Cpp.any_defined m psp_names = false) :
    compiled_backends m = [] := by
  have f1 := hflags .ICE_RAM_WEB
  have f2 := hflags .ICE_RAM_MICROSOFT
  have f3 := hflags .ICE_RAM_APPLE
  have f4 := hflags .ICE_RAM_UNIX
  have f5 := hflags .ICE_RAM_PSP
  simp only [Backend.flag] at f1 f2 f3 f4 f5
  have hd : ∀ n : String, n ≠ "ICE_RAM_PLATFORM_AUTODETECTED" →
      Cpp.defined (Cpp.define m "ICE_RAM_PLATFORM_AUTODETECTED") n = Cpp.defined m n := by
    intro n hn
    simp [Cpp.defined, Cpp.define, hn]
  have hauto : platform_autodetected m = Cpp.define m "ICE_RAM_PLATFORM_AUTODETECTED" := by
    simp [platform_autodetected, f1, f2, f3, f4, f5]
  have g1 : Cpp.any_defined (Cpp.define m "ICE_RAM_PLATFORM_AUTODETECTED") android_names
      = false := by
    rw [← h1]; simp [Cpp.any_defined, android_names, hd]
  have g2 : Cpp.any_defined (Cpp.define m "ICE_RAM_PLATFORM_AUTODETECTED") apple_names
      = false := by
    rw [← h2]; simp [Cpp.any_defined, apple_names, hd]
  have g3 : Cpp.any_defined (Cpp.define m "ICE_RAM_PLATFORM_AUTODETECTED") emscripten_names
      = false := by
    rw [← h3]; simp [Cpp.any_defined, emscripten_names, hd]
  have g4 : Cpp.any_defined (Cpp.define m "ICE_RAM_PLATFORM_AUTODETECTED") beos_names
      = false := by
    rw [← h4]; simp [Cpp.any_defined, beos_names, hd]
  have g5 : linux_condition (Cpp.define m "ICE_RAM_PLATFORM_AUTODETECTED") = false := by
    rw [← h5]; simp [linux_condition, Cpp.any_defined, hd]
  have g6 : microsoft_condition (Cpp.define m "ICE_RAM_PLATFORM_AUTODETECTED") = false := by
    rw [← h6]; simp [microsoft_condition, Cpp.any_defined, hd]
  have g7 : Cpp.any_defined (Cpp.define m "ICE_RAM_PLATFORM_AUTODETECTED") psp_names
      = false := by
    rw [← h7]; simp [Cpp.any_defined, psp_names, hd]
  have hdet : platform_detection (Cpp.define m "ICE_RAM_PLATFORM_AUTODETECTED")
      = Cpp.define m "ICE_RAM_PLATFORM_AUTODETECTED" := by
    simp [platform_detection, g1, g2, g3, g4, g5, g6, g7]
  unfold compiled_backends
  rw [hauto, hdet]
  simp [implementation, Cpp.if_elif, hd, f1, f2, f3, f4, f5]

/-- Memory facade: for every combination of `ICE_RAM_EXTERN` and `ICE_RAM_STATIC` (and any
other macros) `ICE_RAM_APIDEF` is defined, and its replacement text is `extern`. -/
theorem apidef_always_extern (m : Cpp.Macros) : apidef m = some "extern" := by
  unfold apidef linkage_flags ICE_RAM_APIDEF
  by_cases h1 : Cpp.defined m "ICE_RAM_EXTERN" = true <;>
  by_cases h2 : Cpp.defined m "ICE_RAM_STATIC" = true <;>
  simp [h1, h2, Cpp.defined_define_self]

end IceRam

namespace IceRam

/-- Memory facade: the two detection steps only add definitions. -/
theorem platform_detection_keeps_ram (m : Cpp.Macros) (n : String)
    (h : Cpp.defined m n = true) :
    Cpp.defined (platform_detection (platform_autodetected m)) n = true := by
  have h1 : Cpp.defined (platform_autodetected m) n = true := by
    unfold platform_autodetected
    split
    · exact Cpp.defined_define_of_defined _ _ _ h
    · exact h
  unfold platform_detection
  split_ifs <;> first
    | exact Cpp.defined_define_of_defined _ _ _ h1
    | exact h1

/-- Memory facade: with `ICE_RAM_IMPL` defined, exactly one implementation section is compiled
as soon as some platform flag is defined after the detection steps. -/
theorem compiled_backends_exactly_one_of_flag (m : Cpp.Macros)
    (himpl : Cpp.defined m "ICE_RAM_IMPL" = true) (b : Backend)
    (hb : Cpp.defined (platform_detection (platform_autodetected m)) b.flag = true) :
    ∃ c, compiled_backends m = [c] := by
  have hi := platform_detection_keeps_ram m _ himpl
  unfold compiled_backends implementation
  rw [if_pos hi]
  cases b <;> simp only [Backend.flag] at hb <;>
    by_cases h1 : Cpp.defined (platform_detection (platform_autodetected m))
      "ICE_RAM_WEB" = true <;>
    by_cases h2 : Cpp.defined (platform_detection (platform_autodetected m))
      "ICE_RAM_MICROSOFT" = true <;>
    by_cases h3 : Cpp.defined (platform_detection (platform_autodetected m))
      "ICE_RAM_APPLE" = true <;>
    by_cases h4 : Cpp.defined (platform_detection (platform_autodetected m))
      "ICE_RAM_UNIX" = true <;>
    simp_all [Cpp.if_elif]

/-- Memory facade: with `ICE_RAM_IMPL` defined, exactly one implementation section is compiled
when a platform flag is defined beforehand. -/
theorem compiled_backends_exactly_one_of_explicit (m : Cpp.Macros)
    (himpl : Cpp.defined m "ICE_RAM_IMPL" = true) (b : Backend)
    (hb : Cpp.defined m b.flag = true) :
    ∃ c, compiled_backends m = [c] :=
  compiled_backends_exactly_one_of_flag m himpl b (platform_detection_keeps_ram m _ hb)

/-- Memory facade: with `ICE_RAM_IMPL` defined and no platform flag defined beforehand,
exactly one implementation section is compiled when one of the seven conditions of the
detection group holds. -/
theorem compiled_backends_exactly_one_of_matched (m : Cpp.Macros)
    (himpl : Cpp.defined m "ICE_RAM_IMPL" = true)
    (hflags : ∀ b : Backend, Cpp.defined m b.flag = false)
    (hmatch : Cpp.any_defined m android_names = true ∨ Cpp.any_defined m apple_names = true ∨
      Cpp.any_defined m emscripten_names = true ∨ Cpp.any_defined m beos_names = true ∨
      linux_condition m = true ∨ microsoft_condition m = true ∨
      Cpp.any_defined m psp_names = true) :
    ∃ c, compiled_backends m = [c] := by
  have f1 := hflags .ICE_RAM_WEB
  have f2 := hflags .ICE_RAM_MICROSOFT
  have f3 := hflags .ICE_RAM_APPLE
  have f4 := hflags .ICE_RAM_UNIX
  have f5 := hflags .ICE_RAM_PSP
  simp only [Backend.flag] at f1 f2 f3 f4 f5
  have hd : ∀ n : String, n ≠ "ICE_RAM_PLATFORM_AUTODETECTED" →
      Cpp.defined (Cpp.define m "ICE_RAM_PLATFORM_AUTODETECTED") n = Cpp.defined m n := by
    intro n hn
    simp [Cpp.defined, Cpp.define, hn]
  have hauto : platform_autodetected m = Cpp.define m "ICE_RAM_PLATFORM_AUTODETECTED" := by
    simp [platform_autodetected, f1, f2, f3, f4, f5]
  have g1 : Cpp.any_defined (Cpp.define m "ICE_RAM_PLATFORM_AUTODETECTED") android_names
      = Cpp.any_defined m android_names := by
    simp [Cpp.any_defined, android_names, hd]
  have g2 : Cpp.any_defined (Cpp.define m "ICE_RAM_PLATFORM_AUTODETECTED") apple_names
      = Cpp.any_defined m apple_names := by
    simp [Cpp.any_defined, apple_names, hd]
  have g3 : Cpp.any_defined (Cpp.define m "ICE_RAM_PLATFORM_AUTODETECTED") emscripten_names
      = Cpp.any_defined m emscripten_names := by
    simp [Cpp.any_defined, emscripten_names, hd]
  have g4 : Cpp.any_defined (Cpp.define m "ICE_RAM_PLATFORM_AUTODETECTED") beos_names
      = Cpp.any_defined m beos_names := by
    simp [Cpp.any_defined, beos_names, hd]
  have g5 : linux_condition (Cpp.define m "ICE_RAM_PLATFORM_AUTODETECTED")
      = linux_condition m := by
    simp [linux_condition, Cpp.any_defined, hd]
  have g6 : microsoft_condition (Cpp.define m "ICE_RAM_PLATFORM_AUTODETECTED")
      = microsoft_condition m := by
    simp [microsoft_condition, Cpp.any_defined, hd]
  have g7 : Cpp.any_defined (Cpp.define m "ICE_RAM_PLATFORM_AUTODETECTED") psp_names
      = Cpp.any_defined m psp_names := by
    simp [Cpp.any_defined, psp_names, hd]
  have hflag : ∃ b : Backend,
      Cpp.defined (platform_detection (platform_autodetected m)) b.flag = true := by
    rw [hauto]
    unfold platform_detection
    rw [if_pos (Cpp.defined_define_self _ _), g1, g2, g3, g4, g5, g6, g7]
    split_ifs with c1 c2 c3 c4 c5 c6 c7
    · exact ⟨.ICE_RAM_UNIX, Cpp.defined_define_self _ _⟩
    · exact ⟨.ICE_RAM_APPLE, Cpp.defined_define_self _ _⟩
    · exact ⟨.ICE_RAM_WEB, Cpp.defined_define_self _ _⟩
    · exact ⟨.ICE_RAM_UNIX, Cpp.defined_define_self _ _⟩
    · exact ⟨.ICE_RAM_UNIX, Cpp.defined_define_self _ _⟩
    · exact ⟨.ICE_RAM_MICROSOFT, Cpp.defined_define_self _ _⟩
    · exact ⟨.ICE_RAM_PSP, Cpp.defined_define_self _ _⟩
    · exfalso
      rcases hmatch with h | h | h | h | h | h | h
      · exact c1 h
      · exact c2 h
      · exact c3 h
      · exact c4 h
      · exact c5 h
      · exact c6 h
      · exact c7 h
  obtain ⟨b, hb⟩ := hflag
  exact compiled_backends_exactly_one_of_flag m himpl b hb

/-- Memory facade: when the marker `ICE_RAM_PLATFORM_AUTODETECTED` is itself defined
beforehand the detection group runs next to an explicit flag: with `ICE_RAM_UNIX` and the
marker defined on an Apple host, the Apple section is the one compiled. -/
theorem explicit_flag_with_marker_predefined :
    compiled_backends
      ["ICE_RAM_IMPL", "ICE_RAM_UNIX", "ICE_RAM_PLATFORM_AUTODETECTED", "__APPLE__"]
      = [.ICE_RAM_APPLE] := by
  decide

end IceRam

namespace IceRam

/-- Apple backend: after a successful query that stored page size `p` and statistics `st`,
`ice_ram_free` returns `st.free_count * p` reduced modulo `2^32`, and `ice_ram_total` returns
`(active + inactive + wired + free) * p` reduced modulo `2^32`, on either width of
`vm_size_t`. -/
theorem Apple.ice_ram_modulo_two_pow_32 (abi : Apple.Abi) (g : Apple.Globals)
    (os : Apple.HostReply) (p n : Nat) (st : Apple.vm_statistics_data_t)
    (hret : os.host_statistics.ret = Apple.KERN_SUCCESS)
    (hp : os.host_page_size.out = some p) (hs : os.host_statistics.out = some (st, n)) :
    (Apple.ice_ram_total abi g os).1
      = ((st.active_count + st.inactive_count + st.wire_count + st.free_count) * p) % 2 ^ 32 ∧
    (Apple.ice_ram_free abi g os).1 = (st.free_count * p) % 2 ^ 32 := by
  have hdvd : (2 : Nat) ^ 32 ∣ 2 ^ abi.vm_size_bits := by
    cases abi
    · exact dvd_refl _
    · exact pow_dvd_pow 2 (by decide)
  have hsmall : ∀ x : Nat, x % 2 ^ 32 % 2 ^ 64 = x % 2 ^ 32 := fun x =>
    Nat.mod_eq_of_lt (lt_of_lt_of_le (Nat.mod_lt x (by norm_num)) (by norm_num))
  have hused : ((((st.active_count + st.inactive_count) % 2 ^ 32 + st.wire_count) % 2 ^ 32
      * p) % 2 ^ abi.vm_size_bits) % 2 ^ 32
      = ((st.active_count + st.inactive_count + st.wire_count) * p) % 2 ^ 32 := by
    rw [Nat.mod_mod_of_dvd _ hdvd]
    have h1 : ((st.active_count + st.inactive_count) % 2 ^ 32 + st.wire_count) % 2 ^ 32
        ≡ st.active_count + st.inactive_count + st.wire_count [MOD 2 ^ 32] :=
      (Nat.mod_modEq _ _).trans ((Nat.mod_modEq _ _).add_right _)
    exact h1.mul_right p
  have hfree : ((st.free_count * p) % 2 ^ abi.vm_size_bits) % 2 ^ 32
      = (st.free_count * p) % 2 ^ 32 := Nat.mod_mod_of_dvd _ hdvd
  have hq := Apple.query_of_stored g os p n st hp hs
  constructor
  · simp only [Apple.ice_ram_total, hq, hret, ne_eq, not_true_eq_false, if_false,
      to_ice_ram_bytes, Apple.mem_total, Apple.mem_used, Apple.mem_free, Apple.natural_t,
      Apple.vm_size_t, hused, hfree, hsmall]
    rw [← Nat.add_mod, ← Nat.add_mul]
  · simp only [Apple.ice_ram_free, hq, hret, ne_eq, not_true_eq_false, if_false,
      to_ice_ram_bytes, Apple.mem_free, Apple.natural_t, Apple.vm_size_t, hfree, hsmall]

/-- Apple backend: when the total byte amount is below `2^32`, both functions return the exact
byte amounts. -/
theorem Apple.ice_ram_exact_below_4gib (abi : Apple.Abi) (g : Apple.Globals)
    (os : Apple.HostReply) (p n : Nat) (st : Apple.vm_statistics_data_t)
    (hret : os.host_statistics.ret = Apple.KERN_SUCCESS)
    (hp : os.host_page_size.out = some p) (hs : os.host_statistics.out = some (st, n))
    (hfit : (st.active_count + st.inactive_count + st.wire_count + st.free_count) * p
      < 2 ^ 32) :
    (Apple.ice_ram_total abi g os).1
      = (st.active_count + st.inactive_count + st.wire_count + st.free_count) * p ∧
    (Apple.ice_ram_free abi g os).1 = st.free_count * p := by
  obtain ⟨ht, hf⟩ := Apple.ice_ram_modulo_two_pow_32 abi g os p n st hret hp hs
  have hle : st.free_count * p
      ≤ (st.active_count + st.inactive_count + st.wire_count + st.free_count) * p :=
    Nat.mul_le_mul_right p (Nat.le_add_left _ _)
  rw [ht, hf, Nat.mod_eq_of_lt hfit, Nat.mod_eq_of_lt (lt_of_le_of_lt hle hfit)]
  exact ⟨rfl, rfl⟩

/-- C13 (at the failing input): only `ICE_RAM_STATIC` is defined before the header is
included.  The group at ice_ram.h:184-186 then defines `ICE_RAM_EXTERN`, because its condition
is the negation of "both are defined", and `ICE_RAM_APIDEF` is given the replacement text
`extern`, not `static`. -/
theorem C13_static_alone_expands_to_extern :
    Cpp.defined ["ICE_RAM_STATIC"] "ICE_RAM_STATIC" = true ∧
    Cpp.defined ["ICE_RAM_STATIC"] "ICE_RAM_EXTERN" = false ∧
    Cpp.defined (linkage_flags ["ICE_RAM_STATIC"]) "ICE_RAM_EXTERN" = true ∧
    apidef ["ICE_RAM_STATIC"] = some "extern" ∧
    apidef ["ICE_RAM_STATIC"] ≠ some "static" := by
  decide

/-- C14 (at the failing input): the query succeeds on a machine with 16384-byte pages and
300000 free, 400000 active, 200000 inactive and 100000 wired pages.  The exact amounts are
16384000000 bytes in total and 4915200000 bytes free; `ice_ram_total` returns 3499098112 and
`ice_ram_free` returns 620232704, the amounts reduced modulo `2^32`, on either width of
`vm_size_t`. -/
theorem C14_apple_amounts_wrap_at_32_bits (abi : Apple.Abi) :
    (Apple.host_ok 16384 300000 400000 200000 100000).host_statistics.ret
      = Apple.KERN_SUCCESS ∧
    (400000 + 200000 + 100000 + 300000) * 16384 = 16384000000 ∧
    300000 * 16384 = 4915200000 ∧
    (Apple.ice_ram_total abi Apple.globals_init
      (Apple.host_ok 16384 300000 400000 200000 100000)).1 = 3499098112 ∧
    (Apple.ice_ram_free abi Apple.globals_init
      (Apple.host_ok 16384 300000 400000 200000 100000)).1 = 620232704 := by
  cases abi <;> decide

end IceRam

namespace Cpp

/-- C11 (memory facade, at the failing input): ice_ram.h is compiled with `ICE_RAM_IMPL` on a
FreeBSD host, whose compiler predefines `__FreeBSD__` and `__unix__` and none of the names in
the detection lists.  No platform flag is defined by the detection group, which has no
`#else`, and no implementation section is compiled.  With the same predefined macros
ice_ffi.h compiles exactly its POSIX section. -/
theorem C11_ice_ram_unmatched_platform_compiles_nothing :
    IceRam.compiled_backends ["ICE_RAM_IMPL", "__FreeBSD__", "__unix__"] = [] ∧
    IceFfi.compiled_backends ["ICE_FFI_IMPL", "__FreeBSD__", "__unix__"]
      = [.ICE_FFI_PLATFORM_UNIX] := by
  decide

/-- C12: explicit selection overrides detection, for each facade on its own.  Library facade:
for every list of macros defined before ice_ffi.h is included in which `ICE_FFI_IMPL` is
defined, exactly one of the three flags `ICE_FFI_PLATFORM_*` is defined and the internal
marker `ICE_FFI_PLATFORM_AUTODETECTED` is not, the implementation section compiled is the one
named by that flag and no other.  Memory facade: the same for ice_ram.h with `ICE_RAM_IMPL`,
the five flags `ICE_RAM_*` and the marker `ICE_RAM_PLATFORM_AUTODETECTED`.  Nothing is assumed
of the other macros, such as the platform names predefined by the compiler or the macros of
the other header. -/
theorem C12_explicit_flag_selects_backend :
    (∀ (m : Macros) (b : IceFfi.Backend),
      defined m "ICE_FFI_IMPL" = true →
      defined m "ICE_FFI_PLATFORM_AUTODETECTED" = false →
      (∀ c : IceFfi.Backend, defined m c.flag = true ↔ c = b) →
      IceFfi.compiled_backends m = [b]) ∧
    (∀ (m : Macros) (b : IceRam.Backend),
      defined m "ICE_RAM_IMPL" = true →
      defined m "ICE_RAM_PLATFORM_AUTODETECTED" = false →
      (∀ c : IceRam.Backend, defined m c.flag = true ↔ c = b) →
      IceRam.compiled_backends m = [b]) := by
  constructor
  · intro m b himpl hmark hflag
    have e := IceFfi.platform_detection_skipped_ffi m b ((hflag b).mpr rfl) hmark
    have f1 := hflag .ICE_FFI_PLATFORM_MICROSOFT
    have f2 := hflag .ICE_FFI_PLATFORM_UNIX
    have f3 := hflag .ICE_FFI_PLATFORM_BEOS
    simp only [IceFfi.Backend.flag] at f1 f2 f3
    unfold IceFfi.compiled_backends
    rw [e]
    cases b <;> simp_all [IceFfi.implementation, if_elif]
  · intro m b himpl hmark hflag
    have e := IceRam.platform_detection_skipped_ram m b ((hflag b).mpr rfl) hmark
    have r1 := hflag .ICE_RAM_WEB
    have r2 := hflag .ICE_RAM_MICROSOFT
    have r3 := hflag .ICE_RAM_APPLE
    have r4 := hflag .ICE_RAM_UNIX
    have r5 := hflag .ICE_RAM_PSP
    simp only [IceRam.Backend.flag] at r1 r2 r3 r4 r5
    unfold IceRam.compiled_backends
    rw [e]
    cases b <;> simp_all [IceRam.implementation, if_elif]

/-- C12 at two concrete builds, each of one header only.  A build of ice_ffi.h with
`ICE_FFI_PLATFORM_BEOS` on a compiler that predefines names of Windows and Linux compiles the
BeOS section; a build of ice_ram.h with `ICE_RAM_PSP` on a compiler that predefines names of
Windows, Apple and Linux compiles the PSP section. -/
theorem C12_explicit_flag_selects_backend_example :
    IceFfi.compiled_backends ["ICE_FFI_IMPL", "ICE_FFI_PLATFORM_BEOS", "_WIN32", "__linux__"]
      = [.ICE_FFI_PLATFORM_BEOS] ∧
    IceRam.compiled_backends
        ["ICE_RAM_IMPL", "ICE_RAM_PSP", "_WIN32", "__APPLE__", "__linux__"]
      = [.ICE_RAM_PSP] :=
  ⟨C12_explicit_flag_selects_backend.1
      ["ICE_FFI_IMPL", "ICE_FFI_PLATFORM_BEOS", "_WIN32", "__linux__"]
      .ICE_FFI_PLATFORM_BEOS (by decide) (by decide) (by intro c; cases c <;> decide),
    C12_explicit_flag_selects_backend.2
      ["ICE_RAM_IMPL", "ICE_RAM_PSP", "_WIN32", "__APPLE__", "__linux__"]
      .ICE_RAM_PSP (by decide) (by decide) (by intro c; cases c <;> decide)⟩

end Cpp
